import Mathlib

/-!
Verification development for the mammon IRC daemon.

Shallow embedding of the parts of `src/mammon/client.py`,
`src/mammon/ext/ircv3/sasl.py` and `src/mammon/server.py` that the checked
claims are about: the router's common-peer computation, the SASL PLAIN
sub-protocol, the quit/exit lifecycle, the ISUPPORT burst, flood control,
the registration-lock state machine and the legacy user-mode bridge.

Machine integers do not occur on these paths; byte strings are modelled as
`List Nat`, Python exceptions as `Except.error`, and the outbound side of a
handler as an explicit list of emissions.
-/

namespace Mammon

/-- One outbound emission of a session: a numeric (as sent by
`dump_numeric`, nickname target already prepended), a verb line (as sent by
`dump_verb`), or a core-bus dispatch. -/
inductive Out where
  | numeric (code : String) (params : List String)
  | verb (v : String) (params : List String)
  | core (topic : String)
  | dispatch (topic : String) (payload : List Nat)
deriving DecidableEq

/-- `ClientProtocol.dump_numeric` with `add_target=True`: the session's
nickname is prepended as the routing target. -/
def dump_numeric (nick : String) (code : String) (params : List String) : Out :=
  Out.numeric code (nick :: params)

/-! ## Router: common-peer computation (client.py lines 417-425) -/

/-- A read-only view of a session as the router sees it: an identity and its
negotiated capability set.  Sessions compare by identity, modelled by `pid`. -/
structure PeerView where
  pid : Nat
  caps : List String
deriving DecidableEq

/-- Modelled from the spec: `uniq` from `mammon.utility` (module not present
in the source tree); de-duplicates a list preserving the first occurrence. -/
def uniq (l : List PeerView) : List PeerView :=
  l.foldl (fun acc x => if acc.contains x then acc else acc ++ [x]) []

/-- `ClientProtocol.get_common_peers`.  `channels` is the member list of each
channel the session has joined.  The translation keeps the Python conditional
expression exactly as parenthesized by the interpreter:
`base = (comprehension + [self]) if cap in self.caps else []`. -/
def get_common_peers (self_ : PeerView) (channels : List (List PeerView))
    (exclude : List PeerView) (cap : Option String) : List PeerView :=
  let base :=
    match cap with
    | some c =>
      if self_.caps.contains c then
        (channels.map (fun mems =>
          mems.filter (fun i => !(exclude.contains i) && i.caps.contains c))).flatten
          ++ [self_]
      else []
    | none =>
      (channels.map (fun mems =>
        mems.filter (fun i => !(exclude.contains i)))).flatten ++ [self_]
  let peerlist := uniq base
  if exclude.contains self_ && peerlist.contains self_ then
    peerlist.erase self_
  else peerlist

/-! ## SASL PLAIN (ext/ircv3/sasl.py) -/

/-- The session fields the SASL handlers read or write
(`ClientProtocol` attributes). -/
structure SaslSession where
  nickname : String
  username : String
  hostname : String
  registered : Bool
  connected : Bool
  account : Option String
  sasl : Option String
deriving DecidableEq

/-- `ClientProtocol.hostmask` (client.py lines 295-304): `None` before
registration; the `@host` suffix is only appended when `username` is
non-empty, exactly as in the nested source conditionals. -/
def hostmask (s : SaslSession) : Option String :=
  if !s.registered then none
  else some (s.nickname ++
    (if s.username ≠ "" then
      "!" ++ s.username ++ (if s.hostname ≠ "" then "@" ++ s.hostname else "")
     else ""))

/-- The datastore record for `account.<name>`:
`{credentials: {passphrase?}, verified}`. -/
structure AccountInfo where
  passphraseHash : Option String
  verified : Bool
deriving DecidableEq

/-- Models Python `bytes.split(b'\x00')`: split a byte string at every NUL,
keeping empty fragments. -/
def splitNul : List Nat → List (List Nat)
  | [] => [[]]
  | b :: rest =>
    if b = 0 then [] :: splitNul rest
    else
      match splitNul rest with
      | h :: t => (b :: h) :: t
      | [] => [[b]]

/-- Models `str(bytes, 'utf8')` on the ASCII subset the claims exercise
(`none` = `UnicodeDecodeError`). -/
def utf8ascii (bs : List Nat) : Option String :=
  if bs.all (· < 128) then some (String.mk (bs.map Char.ofNat)) else none

/-- `m_sasl_plain` (ext/ircv3/sasl.py lines 82-108).  `decode` models
`str(_, 'utf8')`, `store` models `ctx.data.get`, `verify` models
`ctx.hashing.verify` (all external interfaces).  An `Except.error` result
models an exception escaping the handler (it is trapped at the event-bus
boundary, leaving the session untouched): a three-way unpack of the NUL
split that does not yield exactly three fragments raises `ValueError`. -/
def m_sasl_plain (decode : List Nat → Option String)
    (store : String → Option AccountInfo) (verify : String → String → Bool)
    (cli : SaslSession) (data : List Nat) : Except String (SaslSession × List Out) :=
  match splitNul data with
  | [account_b, _authorization_id_b, passphrase_b] =>
    match decode account_b with
    | none => .error "UnicodeDecodeError"
    | some account =>
      match decode passphrase_b with
      | none => .error "UnicodeDecodeError"
      | some passphrase =>
        match store ("account." ++ account) with
        | some account_info =>
          match account_info.passphraseHash, account_info.verified with
          | some passphrase_hash, true =>
            if verify passphrase passphrase_hash then
              .ok ({cli with account := some account, sasl := none},
                [Out.core "account change",
                 dump_numeric cli.nickname "900"
                   [(hostmask cli).getD "*", account,
                    "You are now logged in as " ++ account],
                 dump_numeric cli.nickname "903" ["SASL authentication successful"]])
            else
              .ok (cli, [dump_numeric cli.nickname "904" ["SASL authentication failed"]])
          | _, _ =>
            .ok (cli, [dump_numeric cli.nickname "904" ["SASL authentication failed"]])
        | none =>
          .ok (cli, [dump_numeric cli.nickname "904" ["SASL authentication failed"]])
  | _ => .error "ValueError"

/-- `valid_mechanisms` from ext/ircv3/sasl.py. -/
def valid_mechanisms : List String := ["PLAIN"]

/-- `m_AUTHENTICATE` (ext/ircv3/sasl.py lines 38-73).  `b64decode` models
`base64.b64decode` (`none` = `binascii.Error`).  The event bus guarantees
`min_params=1`, so the empty-parameter arm is unreachable; a successful
decode is recorded as the core-bus dispatch the code performs. -/
def m_AUTHENTICATE (b64decode : String → Option (List Nat))
    (cli : SaslSession) (params : List String) : SaslSession × List Out :=
  match params with
  | [] => (cli, [])
  | p0 :: rest =>
    if rest = [] ∧ p0 = "*" then
      match cli.sasl with
      | some _ =>
        ({cli with sasl := none},
          [dump_numeric cli.nickname "906" ["SASL authentication aborted"]])
      | none =>
        (cli, [dump_numeric cli.nickname "904" ["SASL authentication failed"]])
    else
      match cli.sasl with
      | some mech =>
        if p0.length > 400 then
          ({cli with sasl := none},
            [dump_numeric cli.nickname "905" ["SASL message too long"]])
        else
          match b64decode p0 with
          | none =>
            (cli, [dump_numeric cli.nickname "904" ["SASL authentication failed"]])
          | some data =>
            (cli, [Out.dispatch ("sasl authenticate " ++ mech.toLower) data])
      | none =>
        let mechanism := p0.toUpper
        if valid_mechanisms.contains mechanism then
          ({cli with sasl := some mechanism}, [Out.verb "AUTHENTICATE" ["+"]])
        else
          (cli, [dump_numeric cli.nickname "904" ["SASL authentication failed"]])

/-! ## Flood control: message_received / drain_queue (client.py lines 212-235) -/

/-- The session fields `message_received` touches.  Parsed messages are
opaque (`Nat`); decoding, CR/LF stripping, truncation and RFC1459 parsing
are the external codec. -/
structure RecvState where
  recvq : List Nat
  connected : Bool
  quits : List String
deriving DecidableEq

/-- `ClientProtocol.quit` as `message_received` uses it: the core-bus
`client quit` dispatch and the QUIT fan-out do not touch the receive queue;
`exit` then marks the session disconnected.  Only the reason and the
`connected` flag matter to the flood claim. -/
def quitR (st : RecvState) (reason : String) : RecvState :=
  { st with connected := false, quits := st.quits ++ [reason] }

/-- `ClientProtocol.drain_queue`: pop the queue FIFO and dispatch each
message on the protocol bus; the dispatched messages are returned. -/
def drain_queue (st : RecvState) : RecvState × List Nat :=
  ({ st with recvq := [] }, st.recvq)

/-- `ClientProtocol.message_received`, receive-queue part: the size check
runs before the append; on overflow `quit('Excess flood')` fires and the
message is never enqueued, otherwise the message is appended and the queue
drained. -/
def message_received (recvq_len : Nat) (st : RecvState) (m : Nat) :
    RecvState × List Nat :=
  if st.recvq.length > recvq_len then
    (quitR st "Excess flood", [])
  else
    drain_queue { st with recvq := st.recvq ++ [m] }

/-! ## quit / exit lifecycle (client.py lines 328-352) -/

/-- The session state `exit` reads and writes, together with the server
registries it mutates: the live-client map (`ctx.clients`, as the list of
registered nicknames) and the client history.  Timer handles are modelled by
their liveness flags; `cancel` and `transport.close` are idempotent. -/
structure ExitWorld where
  registered : Bool
  connected : Bool
  nickname : String
  channels : List String
  clients : List String
  history : List String
  transportClosed : Bool
  pingActive : Bool
  pingTimeoutActive : Bool
deriving DecidableEq

/-- `ClientProtocol.exit` (client.py lines 338-352).  `ctx.clients.pop(nick)`
has no default argument, so a missing key raises `KeyError`
(`Except.error`).  History registration overwrites the entry for the
nickname, after the pop. -/
def exit (w : ExitWorld) : Except String ExitWorld :=
  let w1 := { w with pingActive := false, pingTimeoutActive := false,
                     connected := false, transportClosed := true }
  if !w1.registered then .ok w1
  else
    let w2 := { w1 with channels := [] }
    if w2.clients.contains w2.nickname then
      .ok { w2 with clients := w2.clients.erase w2.nickname,
                    history := w2.nickname :: w2.history.filter (· ≠ w2.nickname) }
    else .error "KeyError"

/-- `ClientProtocol.quit` (client.py lines 328-336): dispatch `client quit`,
fan a QUIT out to the common peers, then `exit`.  The emissions happen
before `exit` runs. -/
def quit (w : ExitWorld) (reason : String) : List String × Except String ExitWorld :=
  (["client quit: " ++ reason, "QUIT: " ++ reason], exit w)

/-- `ClientProtocol.connection_lost` (client.py lines 156-168): the
`connected` flag guards re-entry here; with an exception the reason is
`Connection error: <repr>`, otherwise `Connection closed`. -/
def connection_lost (w : ExitWorld) (exc : Option String) :
    List String × Except String ExitWorld :=
  if !w.connected then ([], .ok w)
  else
    match exc with
    | none => quit w "Connection closed"
    | some e => quit w ("Connection error: " ++ e)

/-! ## Registration locks (client.py lines 354-364, 452-456) -/

/-- The registration state of a session, with a counter of how many times
`register()` has run. -/
structure RegSession where
  registered : Bool
  lock : Finset String
  registerCount : Nat
deriving DecidableEq

/-- `ClientProtocol.register` as far as the registration state machine is
concerned: set `registered`; the registry install, welcome burst and MOTD
side effect go to other components. -/
def register (s : RegSession) : RegSession :=
  { s with registered := true, registerCount := s.registerCount + 1 }

/-- `ClientProtocol.push_registration_lock`: a no-op once registered,
otherwise set union. -/
def push_registration_lock (s : RegSession) (locks : Finset String) : RegSession :=
  if s.registered then s else { s with lock := s.lock ∪ locks }

/-- `ClientProtocol.release_registration_lock`: a no-op once registered,
otherwise set difference; a release that empties the set triggers
`register()`. -/
def release_registration_lock (s : RegSession) (locks : Finset String) : RegSession :=
  if s.registered then s
  else
    let l := s.lock \ locks
    if l = ∅ then register { s with lock := l } else { s with lock := l }

/-- `client_registration_locks` from client.py. -/
def client_registration_locks : Finset String := {"NICK", "USER", "DNS"}

/-- The session state installed by `connection_made`: not registered, the
three initial locks pushed. -/
def initialRegSession : RegSession :=
  push_registration_lock ⟨false, ∅, 0⟩ client_registration_locks

/-- The registration invariant of the spec: `registered ⇔ lock = ∅`. -/
def regInvariant (s : RegSession) : Prop :=
  s.registered ↔ s.lock = ∅

/-! ## Legacy user modes (client.py lines 366-415) -/

/-- Modelled from the spec: the fixed `property_key ↔ mode_letter` table of
`mammon.property` (module not present in the source tree), represented as an
association list in its iteration order; `user_mode_items` is the
letter-to-property view of the same table. -/
def lookupLetter (table : List (String × Char)) (c : Char) : Option String :=
  (table.find? (fun kv => kv.2 == c)).map (·.1)

/-- Association-list update mirroring `self.props[prop] = mod`
(case-insensitivity of the dict is immaterial here: all keys come from the
fixed table). -/
def setProp (props : List (String × Bool)) (k : String) (v : Bool) :
    List (String × Bool) :=
  if props.any (fun kv => kv.1 == k) then
    props.map (fun kv => if kv.1 == k then (k, v) else kv)
  else props ++ [(k, v)]

/-- `props.get(key, False)`. -/
def getProp (props : List (String × Bool)) (k : String) : Bool :=
  ((props.find? (fun kv => kv.1 == k)).map (·.2)).getD false

/-- The fold state of the `set_legacy_modes` character walk: the property
map, the current `+`/`-` toggle (`mod`, initially `False` in the source) and
the numerics emitted so far. -/
structure ModeWalk where
  props : List (String × Bool)
  mod : Bool
  outs : List Out
deriving DecidableEq

/-- One character of the `set_legacy_modes` walk (client.py lines 378-390):
`+`/`-` flip the toggle; `o` under `+` is skipped; a letter outside the mode
table emits numeric 501 and changes nothing; otherwise the property is set
to the toggle. -/
def set_legacy_modes_step (table : List (String × Char)) (nick : String)
    (w : ModeWalk) (c : Char) : ModeWalk :=
  if c = '+' then { w with mod := true }
  else if c = '-' then { w with mod := false }
  else if c = 'o' ∧ w.mod = true then w
  else
    match lookupLetter table c with
    | none =>
      { w with outs := w.outs ++
          [dump_numeric nick "501" [String.mk [c], "Unknown MODE flag"]] }
    | some prop => { w with props := setProp w.props prop w.mod }

/-- `ClientProtocol.flush_legacy_mode_change` (client.py lines 394-415):
walk the property table in order, grouping removals and additions into
`-`/`+` runs, and emit one MODE line with the diff. -/
def flush_legacy_mode_change (table : List (String × Char)) (nick : String)
    (before after : List (String × Bool)) : Out :=
  let r := table.foldl
    (fun (acc : String × Nat) kv =>
      if getProp before kv.1 && !(getProp after kv.1) then
        if acc.2 = 1 then (acc.1 ++ String.mk [kv.2], acc.2)
        else (acc.1 ++ "-" ++ String.mk [kv.2], 1)
      else if !(getProp before kv.1) && getProp after kv.1 then
        if acc.2 = 2 then (acc.1 ++ String.mk [kv.2], acc.2)
        else (acc.1 ++ "+" ++ String.mk [kv.2], 2)
      else acc)
    ("", 0)
  Out.verb "MODE" [nick, r.1]

/-- `ClientProtocol.set_legacy_modes` (client.py lines 374-392): snapshot
the properties, walk the toggle string, then flush the diff as a single
MODE line. -/
def set_legacy_modes (table : List (String × Char)) (nick : String)
    (props : List (String × Bool)) (in_str : List Char) :
    List (String × Bool) × List Out :=
  let before := props
  let w := in_str.foldl (set_legacy_modes_step table nick) ⟨props, false, []⟩
  (w.props, w.outs ++ [flush_legacy_mode_change table nick before w.props])

/-- Is an emission a MODE line? -/
def isMODE : Out → Bool
  | .verb v _ => v == "MODE"
  | _ => false

/-! ## ISUPPORT burst (client.py lines 441-450) -/

/-- An ISUPPORT token value: booleans render as the bare key, everything
else as `KEY=VALUE`. -/
inductive ISupportValue where
  | flag (b : Bool)
  | text (s : String)
deriving DecidableEq

/-- `format_token` from `dump_isupport`. -/
def format_token (k : String) : ISupportValue → String
  | .flag _ => k
  | .text v => k ++ "=" ++ v

/-- `ClientProtocol.dump_isupport`: a single `dump_numeric('005', ...)` call
carrying every token plus the trailing parameter (the source's own comment
marks the >13-token splitting as not implemented). -/
def dump_isupport (nick : String) (tokens : List (String × ISupportValue)) :
    List Out :=
  [dump_numeric nick "005"
    ((tokens.map fun kv => format_token kv.1 kv.2) ++
      ["are supported by this server"])]

/-! ## Concrete instances used by the closed theorems and witnesses -/

/-- A session holding no capabilities. -/
def selfA : PeerView := ⟨0, []⟩

/-- A peer that negotiated `account-tag`. -/
def peerB : PeerView := ⟨1, ["account-tag"]⟩

/-- An unregistered session that has selected the PLAIN mechanism
(nickname still `*`). -/
def cliC2 : SaslSession := ⟨"*", "", "", false, true, none, some "PLAIN"⟩

/-- A data store holding a verified `account.bob` entry with a passphrase
hash. -/
def storeBob : String → Option AccountInfo :=
  fun k => if k = "account.bob" then some ⟨some "HASH", true⟩ else none

/-- A hashing provider under which exactly `hunter2` verifies against
`HASH`. -/
def verifyBob : String → String → Bool :=
  fun p h => p == "hunter2" && h == "HASH"

/-- The decoded bytes of the spec's SASL scenario payload
`"\x00bob\x00hunter2"`. -/
def dataSpecScenario : List Nat :=
  [0, 98, 111, 98, 0, 104, 117, 110, 116, 101, 114, 50]

/-- The decoded bytes of `"bob\x00bob\x00hunter2"`: account name in the
first NUL field, as the code's unpack order expects. -/
def dataFirstFieldBob : List Nat :=
  [98, 111, 98, 0, 98, 111, 98, 0, 104, 117, 110, 116, 101, 114, 50]

/-- A 401-character AUTHENTICATE payload. -/
def payload401 : String := String.mk (List.replicate 401 'a')

/-- A registered, connected session mid-PLAIN-exchange. -/
def cliC6 : SaslSession := ⟨"alice", "a", "host", true, true, none, some "PLAIN"⟩

/-- A registered, connected session present in the nickname registry. -/
def exitW0 : ExitWorld := ⟨true, true, "alice", [], ["alice"], [], false, true, true⟩

/-- The state `exit` leaves `exitW0` in: torn down, removed from the
registry, recorded in history. -/
def exitW1 : ExitWorld := ⟨true, false, "alice", [], [], ["alice"], true, false, false⟩

/-- An ISUPPORT token map with fourteen tokens. -/
def toks14 : List (String × ISupportValue) :=
  [("T1", .flag true), ("T2", .flag true), ("T3", .flag true), ("T4", .flag true),
   ("T5", .flag true), ("T6", .flag true), ("T7", .flag true), ("T8", .flag true),
   ("T9", .flag true), ("T10", .flag true), ("T11", .flag true), ("T12", .flag true),
   ("T13", .flag true), ("NETWORK", .text "example")]

/-- A two-entry mode table: operator and invisible. -/
def table0 : List (String × Char) := [("special:oper", 'o'), ("special:invisible", 'i')]

/-! ## Theorems -/

/-- C1: the claim fails on the code.  With capability filtering requested,
a session that does not itself hold the capability gets an *empty* peer
list: the Python conditional expression parenthesizes as
`(comprehension + [self]) if cap in self.caps else []`, so peers that share
a channel and hold the capability are dropped along with the session
itself, where the claim keeps exactly the capable peers. -/
theorem get_common_peers_drops_peers_when_self_lacks_cap :
    get_common_peers selfA [[selfA, peerB]] [] (some "account-tag") = [] ∧
    peerB.caps.contains "account-tag" = true ∧
    selfA.caps.contains "account-tag" = false :=
  ⟨rfl, rfl, rfl⟩

/-- C2: the claim fails on the code.  On the spec's own scenario — payload
`"\x00bob\x00hunter2"` against a store holding a verified `account.bob`
whose hash verifies `hunter2` — the handler unpacks the *first* NUL field
as the account name.  That field is empty, so the lookup key is
`account.`, the lookup misses, numeric 904 is emitted, and the session's
account is left unset, where the claim expects account `bob` with
numerics 900 and 903. -/
theorem sasl_plain_spec_scenario_fails :
    m_sasl_plain utf8ascii storeBob verifyBob cliC2 dataSpecScenario =
      .ok (cliC2, [Out.numeric "904" ["*", "SASL authentication failed"]]) := by
  rfl

/-- C4: the claim fails on the code.  `dump_isupport` never splits: a
fourteen-token ISUPPORT map is emitted as a single 005 line carrying all
fourteen tokens (the source's own `XXX` comment records the missing
splitting), though each line does end with the trailing parameter
`are supported by this server`. -/
theorem dump_isupport_single_line_fourteen_tokens :
    dump_isupport "alice" toks14 =
      [Out.numeric "005"
        ["alice", "T1", "T2", "T3", "T4", "T5", "T6", "T7", "T8", "T9",
         "T10", "T11", "T12", "T13", "NETWORK=example",
         "are supported by this server"]] ∧
    (dump_isupport "alice" toks14).length = 1 :=
  ⟨rfl, rfl⟩

/-- C3 counterexample: `exit()` is not idempotent for a registered session.
The first call tears the session down and pops it from the nickname
registry; the second call, finding `registered` still true and the nickname
gone, raises `KeyError` from `ctx.clients.pop` — an additional effect the
claim excludes. -/
theorem exit_twice_registered_raises :
    Mammon.exit exitW0 = .ok exitW1 ∧ Mammon.exit exitW1 = .error "KeyError" :=
  ⟨rfl, rfl⟩

/-- C3 amended: `exit()` is idempotent for an *unregistered* session (timer
cancellation and transport close are idempotent, and the registry is never
touched), and re-entry through `connection_lost` is guarded by the
`connected` flag — the guard lives in `connection_lost`, not in
`quit`/`exit` themselves. -/
theorem exit_idempotent_unregistered (w : ExitWorld) (e : Option String)
    (hreg : w.registered = false) :
    Mammon.exit w =
      .ok { w with pingActive := false, pingTimeoutActive := false,
                   connected := false, transportClosed := true } ∧
    Mammon.exit { w with pingActive := false, pingTimeoutActive := false,
                         connected := false, transportClosed := true } =
      .ok { w with pingActive := false, pingTimeoutActive := false,
                   connected := false, transportClosed := true } ∧
    (w.connected = false → connection_lost w e = ([], .ok w)) := by
  refine ⟨?_, ?_, ?_⟩
  · simp [Mammon.exit, hreg]
  · simp [Mammon.exit, hreg]
  · intro hcon
    simp [connection_lost, hcon]

/-- Witness for C3's amended theorem at a concrete unregistered session. -/
theorem exit_idempotent_unregistered_witness :
    Mammon.exit ⟨false, true, "bob", [], [], [], false, true, true⟩ =
      .ok ⟨false, false, "bob", [], [], [], true, false, false⟩ :=
  (exit_idempotent_unregistered ⟨false, true, "bob", [], [], [], false, true, true⟩
    none rfl).1

/-- C5: in `message_received` the recvq size check runs before the append —
when the queue already exceeds `recvq_len`, the session quits with
`Excess flood`, the new message is never enqueued (the queue is returned
unchanged) and nothing is dispatched; and from any state respecting the
bound, the bound still holds after the call, so recvq length never exceeds
the configured `recvq_len` across `message_received` steps. -/
theorem message_received_flood_check_before_append (recvq_len : Nat)
    (st : RecvState) (m : Nat) :
    (st.recvq.length > recvq_len →
      message_received recvq_len st m =
        ({ st with connected := false, quits := st.quits ++ ["Excess flood"] }, [])) ∧
    (st.recvq.length ≤ recvq_len →
      (message_received recvq_len st m).1.recvq = [] ∧
      (message_received recvq_len st m).2 = st.recvq ++ [m] ∧
      (message_received recvq_len st m).1.recvq.length ≤ recvq_len) := by
  constructor
  · intro h
    simp [message_received, quitR, h]
  · intro h
    have hn : ¬ st.recvq.length > recvq_len := by omega
    simp [message_received, drain_queue, hn]

/-- Witness for C5 at concrete states: an over-full queue quits with
`Excess flood` and discards the message; an in-bound queue dispatches
FIFO. -/
theorem message_received_flood_check_before_append_witness :
    message_received 1 ⟨[7, 8], true, []⟩ 9 = (⟨[7, 8], false, ["Excess flood"]⟩, []) ∧
    (message_received 1 ⟨[7], true, []⟩ 9).2 = [7, 9] :=
  ⟨(message_received_flood_check_before_append 1 ⟨[7, 8], true, []⟩ 9).1 (by decide),
   ((message_received_flood_check_before_append 1 ⟨[7], true, []⟩ 9).2 (by decide)).2.1⟩

/-- C7: the registration invariant `registered ⇔ registration_lock = ∅`
holds for the initial session state and is preserved by
`push_registration_lock` and `release_registration_lock`; both are no-ops
once registered; and a release that empties the lock set triggers
`register()` exactly once — the register count increments on the emptying
release, a non-emptying release leaves it unchanged, and once registered
no later call can trigger it again. -/
theorem registration_lock_invariant (s : RegSession) (L : Finset String)
    (hinv : regInvariant s) :
    regInvariant (push_registration_lock s L) ∧
    regInvariant (release_registration_lock s L) ∧
    (s.registered = true →
      push_registration_lock s L = s ∧ release_registration_lock s L = s) ∧
    (s.registered = false → s.lock \ L = ∅ →
      (release_registration_lock s L).registered = true ∧
      (release_registration_lock s L).registerCount = s.registerCount + 1) ∧
    (s.registered = false → s.lock \ L ≠ ∅ →
      (release_registration_lock s L).registered = false ∧
      (release_registration_lock s L).registerCount = s.registerCount) ∧
    regInvariant initialRegSession := by
  have hinit : regInvariant initialRegSession := by
    simp [regInvariant, initialRegSession, push_registration_lock,
      client_registration_locks]
  by_cases hreg : s.registered = true
  · refine ⟨?_, ?_, fun _ => ⟨?_, ?_⟩, ?_, ?_, hinit⟩
    · simpa [push_registration_lock, hreg] using hinv
    · simpa [release_registration_lock, hreg] using hinv
    · simp [push_registration_lock, hreg]
    · simp [release_registration_lock, hreg]
    · intro hfalse
      rw [hreg] at hfalse
      exact absurd hfalse (by simp)
    · intro hfalse
      rw [hreg] at hfalse
      exact absurd hfalse (by simp)
  · have hregf : s.registered = false := by
      cases h : s.registered
      · rfl
      · exact absurd h hreg
    have hlock : s.lock ≠ ∅ := fun h => hreg (hinv.mpr h)
    refine ⟨?_, ?_, fun h => absurd h hreg, fun _ hd => ?_, fun _ hd => ?_, hinit⟩
    · simp [regInvariant, push_registration_lock, hregf, Finset.union_eq_empty]
      intro h _
      exact absurd h hlock
    · by_cases hd : s.lock \ L = ∅
      · simp [regInvariant, release_registration_lock, register, hregf, hd]
      · simp [regInvariant, release_registration_lock, hregf, hd]
    · simp [release_registration_lock, register, hregf, hd]
    · simp [release_registration_lock, register, hregf, hd]

/-- Witness for C7: releasing the last lock of an unregistered session
registers it, incrementing the register count to one. -/
theorem registration_lock_invariant_witness :
    (release_registration_lock ⟨false, {"NICK"}, 0⟩ {"NICK"}).registered = true ∧
    (release_registration_lock ⟨false, {"NICK"}, 0⟩ {"NICK"}).registerCount = 1 :=
  (registration_lock_invariant ⟨false, {"NICK"}, 0⟩ {"NICK"}
    (by simp [regInvariant])).2.2.2.1 rfl (by decide)

/-- Splitting a byte string at NUL yields one more fragment than the number
of NULs it contains. -/
theorem length_splitNul (l : List Nat) : (splitNul l).length = l.count 0 + 1 := by
  induction l with
  | nil => rfl
  | cons b rest ih =>
    by_cases hb : b = 0
    · subst hb
      simp [splitNul, List.count_cons, ih]
    · cases hsr : splitNul rest with
      | nil => rw [hsr] at ih; simp at ih
      | cons h t =>
        rw [hsr] at ih
        simp only [List.length_cons] at ih
        simp [splitNul, hb, hsr, List.count_cons, ih]

/-- C9: when the decoded PLAIN payload does not contain exactly two NUL
bytes, the three-way unpack raises before anything else runs: the handler
ends in an exception (trapped at the event-bus boundary), so no numeric —
not even 904 — is sent and the session's `account` and `sasl` slots are
untouched; in particular 904 is only reachable for payloads with exactly
two NULs. -/
theorem sasl_plain_raises_without_two_nuls (decode : List Nat → Option String)
    (store : String → Option AccountInfo) (verify : String → String → Bool)
    (cli : SaslSession) (data : List Nat) (h : data.count 0 ≠ 2) :
    m_sasl_plain decode store verify cli data = .error "ValueError" := by
  have hl : (splitNul data).length = data.count 0 + 1 := length_splitNul data
  have h3 : (splitNul data).length ≠ 3 := by omega
  unfold m_sasl_plain
  cases hsp : splitNul data with
  | nil => rfl
  | cons a t =>
    cases t with
    | nil => rfl
    | cons b t2 =>
      cases t2 with
      | nil => rfl
      | cons c t3 =>
        cases t3 with
        | nil =>
          rw [hsp] at h3
          exact absurd rfl h3
        | cons d t4 => rfl

/-- Witness for C9: a NUL-free payload makes the handler raise with no
emissions. -/
theorem sasl_plain_raises_without_two_nuls_witness :
    m_sasl_plain utf8ascii (fun _ => none) (fun _ _ => false) cliC2 [1, 2, 3] =
      .error "ValueError" :=
  sasl_plain_raises_without_two_nuls utf8ascii (fun _ => none) (fun _ _ => false)
    cliC2 [1, 2, 3] (by decide)

/-- C10: a PLAIN exchange that succeeds while the session is not yet
registered substitutes `*` for the hostmask parameter of numeric 900
(`hostmask` is `None` pre-registration), while the account is still set,
`account change` is dispatched, `sasl` is cleared and 903 is still
emitted. -/
theorem sasl_plain_success_unregistered_star (decode : List Nat → Option String)
    (store : String → Option AccountInfo) (verify : String → String → Bool)
    (cli : SaslSession) (data ab zb pb : List Nat) (acct pass hsh : String)
    (hreg : cli.registered = false)
    (hsplit : splitNul data = [ab, zb, pb])
    (hda : decode ab = some acct) (hdp : decode pb = some pass)
    (hstore : store ("account." ++ acct) = some ⟨some hsh, true⟩)
    (hver : verify pass hsh = true) :
    m_sasl_plain decode store verify cli data =
      .ok ({ cli with account := some acct, sasl := none },
        [Out.core "account change",
         Out.numeric "900"
           [cli.nickname, "*", acct, "You are now logged in as " ++ acct],
         Out.numeric "903" [cli.nickname, "SASL authentication successful"]]) := by
  unfold m_sasl_plain
  rw [hsplit]
  simp [hda, hdp, hstore, hver, dump_numeric, hostmask, hreg]

/-- Witness for C10: with the account name in the first NUL field of the
payload, an unregistered session logs in and 900 carries `*`. -/
theorem sasl_plain_success_unregistered_star_witness :
    m_sasl_plain utf8ascii storeBob verifyBob cliC2 dataFirstFieldBob =
      .ok ({ cliC2 with account := some "bob", sasl := none },
        [Out.core "account change",
         Out.numeric "900" ["*", "*", "bob", "You are now logged in as bob"],
         Out.numeric "903" ["*", "SASL authentication successful"]]) :=
  sasl_plain_success_unregistered_star utf8ascii storeBob verifyBob cliC2
    dataFirstFieldBob [98, 111, 98] [98, 111, 98]
    [104, 117, 110, 116, 101, 114, 50] "bob" "hunter2" "HASH"
    rfl (by decide) (by decide) (by decide) (by decide) (by decide)

/-- C6 counterexample: an oversize (401-character) AUTHENTICATE payload
mid-exchange emits numeric 905 and clears the `sasl` slot, but the session
is *not* terminated: `connected` stays true and no QUIT of any kind is
issued — the handler simply returns. -/
theorem authenticate_oversize_not_terminated :
    m_AUTHENTICATE (fun _ => none) cliC6 [payload401] =
      ({ cliC6 with sasl := none },
        [Out.numeric "905" ["alice", "SASL message too long"]]) ∧
    SaslSession.connected { cliC6 with sasl := none } = true := by
  constructor
  · set_option maxRecDepth 4000 in rfl
  · rfl

/-- C6 amended: for any session with a SASL exchange in progress, a payload
longer than 400 characters yields exactly numeric 905 and a cleared `sasl`
slot; every other session field — `connected` included — is unchanged, and
the session is not terminated. -/
theorem authenticate_oversize_905 (b64 : String → Option (List Nat))
    (cli : SaslSession) (mech p : String)
    (hs : cli.sasl = some mech) (hp : p.length > 400) :
    m_AUTHENTICATE b64 cli [p] =
      ({ cli with sasl := none },
        [Out.numeric "905" [cli.nickname, "SASL message too long"]]) ∧
    SaslSession.connected { cli with sasl := none } = cli.connected := by
  have hps : p ≠ "*" := by
    intro he
    rw [he] at hp
    exact absurd hp (by decide)
  refine ⟨?_, rfl⟩
  simp only [m_AUTHENTICATE, hs]
  rw [if_neg (by simp [hps]), if_pos hp]
  rfl

/-- Witness for C6's amended theorem at a concrete 401-character payload. -/
theorem authenticate_oversize_905_witness :
    m_AUTHENTICATE (fun _ => none) cliC6 [payload401] =
      ({ cliC6 with sasl := none },
        [Out.numeric "905" [cliC6.nickname, "SASL message too long"]]) :=
  (authenticate_oversize_905 (fun _ => none) cliC6 "PLAIN" payload401 rfl
    (by set_option maxRecDepth 4000 in decide)).1

/-- The character walk of `set_legacy_modes` never emits a MODE line: every
step either mutates the walk state silently or appends a 501 numeric. -/
theorem foldl_step_no_mode (table : List (String × Char)) (nick : String)
    (s : List Char) (w : ModeWalk) :
    ((s.foldl (set_legacy_modes_step table nick) w).outs).filter isMODE =
      w.outs.filter isMODE := by
  induction s generalizing w with
  | nil => rfl
  | cons c cs ih =>
    rw [List.foldl_cons, ih]
    unfold set_legacy_modes_step
    by_cases h1 : c = '+'
    · simp [h1]
    · by_cases h2 : c = '-'
      · simp [h1, h2]
      · by_cases h3 : c = 'o' ∧ w.mod = true
        · simp [h1, h2, h3]
        · rw [if_neg h1, if_neg h2, if_neg h3]
          cases hlk : lookupLetter table c with
          | none => simp [List.filter_append, isMODE, dump_numeric]
          | some prop => simp

/-- C8: the `set_legacy_modes` walk, for any mode table that maps the
letter `o` (as the real table does): a letter with no table entry emits
numeric 501 and changes no property; `o` is ignored while the toggle is
`+` but applied (property cleared) while it is `-`; and the whole walk
emits exactly one MODE line, carrying the grouped `+`/`-` diff between the
snapshot taken before the walk and the properties after it. -/
theorem set_legacy_modes_spec (table : List (String × Char)) (operProp : String)
    (hoper : lookupLetter table 'o' = some operProp) :
    (∀ nick w c, c ≠ '+' → c ≠ '-' → lookupLetter table c = none →
      set_legacy_modes_step table nick w c =
        { w with outs := w.outs ++
            [Out.numeric "501" [nick, String.mk [c], "Unknown MODE flag"]] }) ∧
    (∀ nick w, w.mod = true → set_legacy_modes_step table nick w 'o' = w) ∧
    (∀ nick w, w.mod = false →
      set_legacy_modes_step table nick w 'o' =
        { w with props := setProp w.props operProp false }) ∧
    (∀ nick props s,
      ((set_legacy_modes table nick props s).2).filter isMODE =
        [flush_legacy_mode_change table nick props
          (set_legacy_modes table nick props s).1]) := by
  refine ⟨?_, ?_, ?_, ?_⟩
  · intro nick w c h1 h2 hlk
    have hco : c ≠ 'o' := by
      intro he
      rw [he, hoper] at hlk
      exact Option.noConfusion hlk
    unfold set_legacy_modes_step
    rw [if_neg h1, if_neg h2, if_neg (fun hc => hco hc.1), hlk]
    rfl
  · intro nick w hm
    unfold set_legacy_modes_step
    rw [if_neg (by decide), if_neg (by decide), if_pos ⟨rfl, hm⟩]
  · intro nick w hm
    unfold set_legacy_modes_step
    rw [if_neg (by decide), if_neg (by decide), if_neg (by simp [hm]), hoper, hm]
  · intro nick props s
    unfold set_legacy_modes
    rw [List.filter_append, foldl_step_no_mode]
    simp [isMODE, flush_legacy_mode_change]

/-- Witness for C8 on a two-letter table: unknown letter `x` yields 501 and
no property change, `+o` is skipped, `-o` clears the operator property, and
a full walk emits exactly the single grouped MODE diff line. -/
theorem set_legacy_modes_spec_witness :
    set_legacy_modes_step table0 "n" ⟨[], false, []⟩ 'x' =
      ⟨[], false, [Out.numeric "501" ["n", "x", "Unknown MODE flag"]]⟩ ∧
    set_legacy_modes_step table0 "n" ⟨[], true, []⟩ 'o' = ⟨[], true, []⟩ ∧
    set_legacy_modes_step table0 "n" ⟨[("special:oper", true)], false, []⟩ 'o' =
      ⟨[("special:oper", false)], false, []⟩ ∧
    ((set_legacy_modes table0 "n" [("special:oper", true)]
        ['+', 'o', 'i', 'x', '-', 'o']).2).filter isMODE =
      [Out.verb "MODE" ["n", "-o+i"]] := by
  refine ⟨?_, ?_, ?_, ?_⟩
  · exact (set_legacy_modes_spec table0 "special:oper" rfl).1 "n"
      ⟨[], false, []⟩ 'x' (by decide) (by decide) (by decide)
  · exact (set_legacy_modes_spec table0 "special:oper" rfl).2.1 "n"
      ⟨[], true, []⟩ rfl
  · exact (set_legacy_modes_spec table0 "special:oper" rfl).2.2.1 "n"
      ⟨[("special:oper", true)], false, []⟩ rfl
  · exact ((set_legacy_modes_spec table0 "special:oper" rfl).2.2.2 "n"
      [("special:oper", true)] ['+', 'o', 'i', 'x', '-', 'o']).trans (by rfl)

end Mammon
